import Mathlib

/-!
Verification of the inventory stock ledger core of the Fuy repository.

The source is a React application.  The core logic lives in the
TransactionManager component (unit resolution, cart/draft management,
submit, edit) and the Dashboard component (low-stock statistics).
Quantities and conversion ratios are JavaScript numbers used with
"step any" inputs; the spec requires decimal-safe fractional values,
so they are modelled as rationals.  Component state updates become
pure state-passing functions; early returns of event handlers become
explicit outcome constructors.
-/

namespace Fuy

/-- An alternative unit with its conversion ratio to the base unit
(UnitDefinition in types). -/
structure UnitDefinition where
  name : String
  ratio : ℚ
deriving DecidableEq, Repr

/-- A catalog item (InventoryItem in types); fields used by the
TransactionManager and Dashboard components. -/
structure InventoryItem where
  id : String
  sku : String
  name : String
  category : String
  quantity : ℚ
  baseUnit : String
  alternativeUnits : List UnitDefinition
  minLevel : ℚ
  unitPrice : ℚ
deriving DecidableEq, Repr

/-- Transaction direction (TransactionType in types). -/
inductive TransactionType
  | IN
  | OUT
deriving DecidableEq, Repr

/-- One cart/transaction line (TransactionItemDetail in types). -/
structure TransactionItemDetail where
  itemId : String
  itemName : String
  quantityInput : ℚ
  selectedUnit : String
  conversionRatio : ℚ
  totalBaseQuantity : ℚ
deriving DecidableEq, Repr

/-- A committed transaction record.  The supplier fields and photos are
present only for inbound transactions (the source spreads them
conditionally on type), hence Option. -/
structure Transaction where
  id : String
  date : String
  type : TransactionType
  items : List TransactionItemDetail
  notes : String
  timestamp : String
  supplierName : Option String
  poNumber : Option String
  riNumber : Option String
  photos : Option (List String)
deriving DecidableEq, Repr

/-- handleUnitSelect: the conversion ratio the component stores for a
selected unit name.  Translates the source
  if (unitName === selectedItem.baseUnit) setConversionRatio(1);
  else setConversionRatio(selectedItem.alternativeUnits?.find(u => u.name === unitName)?.ratio || 1);
The JavaScript expression (alt?.ratio || 1) yields 1 both when no
alternative unit matches and when the matching ratio is 0. -/
def handleUnitSelect (item : InventoryItem) (unitName : String) : ℚ :=
  if unitName = item.baseUnit then 1
  else
    match item.alternativeUnits.find? (fun u => u.name == unitName) with
    | some alt => if alt.ratio = 0 then 1 else alt.ratio
    | none => 1

/-- The quantity of one item already drafted in a cart: the source
  cart.filter(it => it.itemId === selectedItem.id)
      .reduce((sum, current) => sum + current.totalBaseQuantity, 0). -/
def alreadyInCart (cart : List TransactionItemDetail) (itemId : String) : ℚ :=
  (cart.filter (fun it => it.itemId == itemId)).foldl
    (fun sum current => sum + current.totalBaseQuantity) 0

/-- The component state the draft handlers touch: the inventory prop and
the two carts.  The inventory list is a prop owned by the parent; the
handlers below thread it through unchanged, exactly as the component
never calls any inventory setter. -/
structure ManagerState where
  inventory : List InventoryItem
  cartItems : List TransactionItemDetail
  editCartItems : List TransactionItemDetail
deriving DecidableEq, Repr

/-- Which cart handleAddToCart targets (its targetCart argument). -/
inductive CartTarget
  | newCart
  | editCart
deriving DecidableEq, Repr

/-- Outcome of handleAddToCart: the silent early return on a missing
item or falsy quantityInput, the insufficient-stock alert return, or the
successful append with the updated state. -/
inductive AddOutcome
  | noOp
  | insufficientStock
  | added (st : ManagerState)
deriving DecidableEq, Repr

/-- The new line handleAddToCart constructs:
  { itemId, itemName, quantityInput, selectedUnit, conversionRatio,
    totalBaseQuantity: quantityInput * conversionRatio }. -/
def mkLine (item : InventoryItem) (quantityInput conversionRatio : ℚ)
    (selectedUnit : String) : TransactionItemDetail :=
  { itemId := item.id
    itemName := item.name
    quantityInput := quantityInput
    selectedUnit := selectedUnit
    conversionRatio := conversionRatio
    totalBaseQuantity := quantityInput * conversionRatio }

/-- handleAddToCart (source lines 176-214).  Guard: if (!selectedItem ||
!quantityInput) return — a missing item or quantityInput equal to 0 is a
silent no-op.  For type OUT only, the already-drafted total of the same
item in the TARGET cart plus the new base quantity is checked against
item.quantity; strictly exceeding it alerts and returns.  Otherwise the
line is appended to the target cart.  The check is governed by the
new-transaction form type state, which is this function's type argument,
for both cart targets. -/
def handleAddToCart (targetCart : CartTarget) (ty : TransactionType)
    (selectedItem : Option InventoryItem) (quantityInput conversionRatio : ℚ)
    (selectedUnit : String) (st : ManagerState) : AddOutcome :=
  match selectedItem with
  | none => .noOp
  | some item =>
    if quantityInput = 0 then .noOp
    else
      let calculatedBase := quantityInput * conversionRatio
      let targetList :=
        match targetCart with
        | .newCart => st.cartItems
        | .editCart => st.editCartItems
      if ty = .OUT ∧ alreadyInCart targetList item.id + calculatedBase > item.quantity then
        .insufficientStock
      else
        match targetCart with
        | .newCart =>
          .added { st with cartItems :=
            st.cartItems ++ [mkLine item quantityInput conversionRatio selectedUnit] }
        | .editCart =>
          .added { st with editCartItems :=
            st.editCartItems ++ [mkLine item quantityInput conversionRatio selectedUnit] }

/-- addLine of the draft contract: selecting the unit (which stores the
resolved conversion ratio in component state) followed by
handleAddToCart with that stored ratio — the composition the UI
performs for the new-transaction cart. -/
def addLine (ty : TransactionType) (item : InventoryItem) (unitName : String)
    (quantityInput : ℚ) (st : ManagerState) : AddOutcome :=
  handleAddToCart .newCart ty (some item) quantityInput
    (handleUnitSelect item unitName) unitName st

/-- The cart remove button: setCartItems(prev => prev.filter((_, idx) => idx !== i)). -/
def removeLine (cart : List TransactionItemDetail) (i : ℕ) : List TransactionItemDetail :=
  (cart.enum.filter (fun p => p.1 != i)).map Prod.snd

/-- The remove handler as a state update: only cartItems changes. -/
def removeLineStep (i : ℕ) (st : ManagerState) : ManagerState :=
  { st with cartItems := removeLine st.cartItems i }

/-- updateEditItemQty (source lines 282-286): replaces the line at the
index with quantityInput set to the new quantity and totalBaseQuantity
recomputed as newQty * (line.conversionRatio || 1) from the ratio stored
on the line itself.  Out-of-range indices never occur in the component
(the handler is invoked per rendered line); they leave the list
unchanged here. -/
def updateEditItemQty (editCartItems : List TransactionItemDetail) (index : ℕ)
    (newQty : ℚ) : List TransactionItemDetail :=
  match editCartItems[index]? with
  | none => editCartItems
  | some it =>
    editCartItems.set index
      { it with quantityInput := newQty
                totalBaseQuantity :=
                  newQty * (if it.conversionRatio = 0 then 1 else it.conversionRatio) }

/-- The edit-modal state populated by openEditModal. -/
structure EditModalState where
  editingTransaction : Option Transaction
  editDate : String
  editType : TransactionType
  editNotes : String
  editCartItems : List TransactionItemDetail
  editSupplierName : String
  editPoNumber : String
  editRiNumber : String
  editPhotos : List String
  isEditModalOpen : Bool
deriving DecidableEq, Repr

/-- openEditModal (source lines 271-280): copies the transaction into
the edit-modal state; the new-transaction form type state is not
touched. -/
def openEditModal (tx : Transaction) : EditModalState :=
  { editingTransaction := some tx
    editDate := tx.date
    editType := tx.type
    editNotes := tx.notes
    editCartItems := tx.items
    editSupplierName := tx.supplierName.getD ""
    editPoNumber := tx.poNumber.getD ""
    editRiNumber := tx.riNumber.getD ""
    editPhotos := tx.photos.getD []
    isEditModalOpen := true }

/-- handleSaveEdit (source lines 288-303): if no transaction is being
edited, a silent no-op; otherwise unconditionally builds the updated
record from the edit-modal fields and hands it to onUpdateTransaction.
No validation of any kind is performed. -/
def handleSaveEdit (editingTransaction : Option Transaction) (editDate : String)
    (editType : TransactionType) (editNotes : String)
    (editCartItems : List TransactionItemDetail)
    (editSupplierName editPoNumber editRiNumber : String)
    (editPhotos : List String) : Option Transaction :=
  match editingTransaction with
  | none => none
  | some tx =>
    some { tx with
      date := editDate
      type := editType
      items := editCartItems
      notes := editNotes
      supplierName := some editSupplierName
      poNumber := some editPoNumber
      riNumber := some editRiNumber
      photos := some editPhotos }

/-- handleSubmitTransaction (source lines 261-269): if
(cartItems.length === 0) return — an empty cart is a silent no-op and
onProcessTransaction is never invoked; otherwise the transaction record
is built (supplier fields and photos only for type IN) and passed to
onProcessTransaction.  The returned Option is the invocation of that
callback: none means it was not called. -/
def handleSubmitTransaction (cartItems : List TransactionItemDetail)
    (newId date : String) (ty : TransactionType) (notes timestamp : String)
    (supplierName poNumber riNumber : String) (photos : List String) :
    Option Transaction :=
  if cartItems.length = 0 then none
  else
    some { id := newId
           date := date
           type := ty
           items := cartItems
           notes := notes
           timestamp := timestamp
           supplierName := if ty = .IN then some supplierName else none
           poNumber := if ty = .IN then some poNumber else none
           riNumber := if ty = .IN then some riNumber else none
           photos := if ty = .IN then some photos else none }

/-- Modelled from the spec: the App-level handler behind
onProcessTransaction is not under src.  Per the spec, committing a
transaction applies the signed delta of every line to the catalog:
+totalBaseQuantity for IN, -totalBaseQuantity for OUT. -/
def processTransaction (items : List InventoryItem) (tx : Transaction) :
    List InventoryItem :=
  tx.items.foldl
    (fun inv line =>
      inv.map (fun it =>
        if it.id == line.itemId then
          { it with quantity := it.quantity +
              (match tx.type with
               | .IN => line.totalBaseQuantity
               | .OUT => -line.totalBaseQuantity) }
        else it))
    items

/-- Modelled from the spec: the caller appends the committed record to
the ledger history only when the submit handler actually produced one. -/
def recordTransaction (txs : List Transaction) (res : Option Transaction) :
    List Transaction :=
  match res with
  | none => txs
  | some t => txs ++ [t]

/-- Modelled from the spec: the caller applies the catalog deltas only
when the submit handler actually produced a record. -/
def applyOutcome (items : List InventoryItem) (res : Option Transaction) :
    List InventoryItem :=
  match res with
  | none => items
  | some t => processTransaction items t

/-- The Dashboard low-stock predicate, used by both the stats memo and
the lowStockItems memo: i.minLevel > 0 && i.quantity <= i.minLevel. -/
def lowStockFilter (i : InventoryItem) : Bool :=
  decide (0 < i.minLevel) && decide (i.quantity ≤ i.minLevel)

/-- stats.lowStockCount (source part_000 line 45):
  items.filter(i => i.minLevel > 0 && i.quantity <= i.minLevel).length. -/
def lowStockCount (items : List InventoryItem) : ℕ :=
  (items.filter lowStockFilter).length

/-- The sort key of the Dashboard low-stock list. -/
def criticalRatio (i : InventoryItem) : ℚ :=
  i.quantity / i.minLevel

/-- The ordering of the Dashboard low-stock sort: the JavaScript
comparator (a.quantity/a.minLevel) - (b.quantity/b.minLevel) sorts
ascending by the critical ratio. -/
def criticalLe (a b : InventoryItem) : Bool :=
  decide (criticalRatio a ≤ criticalRatio b)

/-- lowStockItems (source part_000 lines 52-55): filter by the low-stock
predicate, then sort ascending by quantity / minLevel.  The JavaScript
sort with the subtraction comparator is modelled as a stable sort by the
corresponding ordering. -/
def lowStockItems (items : List InventoryItem) : List InventoryItem :=
  List.mergeSort (items.filter lowStockFilter) criticalLe

/-- The item of Scenario A of the spec: quantity 100, base unit Pcs, one
alternative unit Box with ratio 12. -/
def scenarioItem : InventoryItem :=
  { id := "item-1"
    sku := "SKU-1"
    name := "Widget"
    category := "General"
    quantity := 100
    baseUnit := "Pcs"
    alternativeUnits := [{ name := "Box", ratio := 12 }]
    minLevel := 0
    unitPrice := 0 }

/-- A fresh manager state: the scenario item in the inventory prop and
both carts empty. -/
def emptyState : ManagerState :=
  { inventory := [scenarioItem], cartItems := [], editCartItems := [] }

/-- A manager state holding two drafted lines, for concrete removal. -/
def twoLineState : ManagerState :=
  { inventory := [scenarioItem]
    cartItems := [mkLine scenarioItem 1 1 "Pcs", mkLine scenarioItem 2 12 "Box"]
    editCartItems := [] }

/-- The state produced by the successful branch of handleAddToCart: the
new line appended to the targeted cart, everything else unchanged. -/
def appendToTarget (target : CartTarget) (L : TransactionItemDetail)
    (st : ManagerState) : ManagerState :=
  match target with
  | .newCart => { st with cartItems := st.cartItems ++ [L] }
  | .editCart => { st with editCartItems := st.editCartItems ++ [L] }

/-- A committed outbound transaction holding one Box 5 line (60 base
units) for the scenario item, as after Scenario B style usage. -/
def scenarioTxOut : Transaction :=
  { id := "tx-1"
    date := "2024-01-01"
    type := .OUT
    items := [mkLine scenarioItem 5 12 "Box"]
    notes := ""
    timestamp := "t0"
    supplierName := none
    poNumber := none
    riNumber := none
    photos := none }

/-- The successful branch of handleAddToCart appends exactly the new
line to the targeted cart and leaves everything else of the state
unchanged. -/
theorem handleAddToCart_added (target : CartTarget) (ty : TransactionType)
    (item : InventoryItem) (q ratio : ℚ) (u : String) (st st1 : ManagerState)
    (h : handleAddToCart target ty (some item) q ratio u st = .added st1) :
    st1 = appendToTarget target (mkLine item q ratio u) st := by
  cases target <;>
    (simp only [handleAddToCart] at h
     split at h
     · exact absurd h (by simp)
     · split at h
       · exact absurd h (by simp)
       · simp only [AddOutcome.added.injEq] at h
         simp [h.symm, appendToTarget])

/-- For a nonzero quantity the OUT availability alert of handleAddToCart
fires exactly when the already-drafted total of the item in the target
cart plus the new base quantity strictly exceeds the item quantity. -/
theorem handleAddToCart_out_iff (target : CartTarget) (item : InventoryItem)
    (q ratio : ℚ) (u : String) (st : ManagerState) (hq : q ≠ 0) :
    (handleAddToCart target .OUT (some item) q ratio u st = .insufficientStock ↔
      alreadyInCart
          (match target with
           | .newCart => st.cartItems
           | .editCart => st.editCartItems) item.id + q * ratio > item.quantity) := by
  cases target <;>
    (simp only [handleAddToCart, hq, if_false]
     split
     · next hcond => simpa using hcond.2
     · next hcond =>
       push_neg at hcond
       constructor
       · intro hcontra
         exact absurd hcontra (by simp)
       · intro hgt
         exact absurd (hcond trivial) (by simpa using hgt))

/-- The quantity of the amended line and the frame on all other lines of
updateEditItemQty: the recomputation uses only the ratio stored on the
line itself. -/
theorem updateEditItemQty_spec (cart : List TransactionItemDetail) (idx : ℕ)
    (q : ℚ) (L : TransactionItemDetail) (hL : cart[idx]? = some L) :
    (updateEditItemQty cart idx q)[idx]? =
      some { L with quantityInput := q
                    totalBaseQuantity :=
                      q * (if L.conversionRatio = 0 then 1 else L.conversionRatio) } ∧
    ∀ j, j ≠ idx → (updateEditItemQty cart idx q)[j]? = cart[j]? := by
  have hlt : idx < cart.length := by
    by_contra hge
    rw [List.getElem?_eq_none (Nat.le_of_not_lt hge)] at hL
    exact Option.noConfusion hL
  constructor
  · simp only [updateEditItemQty, hL]
    exact List.getElem?_set_self hlt
  · intro j hj
    simp only [updateEditItemQty, hL]
    exact List.getElem?_set_ne (fun h => hj h.symm)

/-- Filtering out an index below the start of an enumeration keeps
every entry. -/
theorem enumFrom_filter_gt {α : Type} (k : ℕ) :
    ∀ (l : List α) (m : ℕ), k < m →
      (List.enumFrom m l).filter (fun p => p.1 != k) = List.enumFrom m l := by
  intro l
  induction l with
  | nil => intro m _; rfl
  | cons a tl ih =>
    intro m hk
    have hne : (m != k) = true := by
      simp only [bne_iff_ne, ne_eq]
      exact ne_of_gt hk
    simp only [List.enumFrom, List.filter_cons, hne, if_true]
    rw [ih (m + 1) (Nat.lt_succ_of_lt hk)]

/-- Filtering an enumeration by index-not-equal removes exactly the
element at that offset. -/
theorem enumFrom_filter_ne_map_snd {α : Type} :
    ∀ (l : List α) (i n : ℕ),
      ((List.enumFrom n l).filter (fun p => p.1 != n + i)).map Prod.snd =
        l.take i ++ l.drop (i + 1) := by
  intro l
  induction l with
  | nil => intro i n; simp
  | cons a tl ih =>
    intro i n
    cases i with
    | zero =>
      have h0 : (n != n + 0) = false := by simp
      simp only [List.enumFrom, List.filter_cons, h0, Bool.false_eq_true, if_false,
        Nat.add_zero]
      rw [enumFrom_filter_gt n tl (n + 1) (Nat.lt_succ_self n)]
      simp [List.enumFrom_map_snd]
    | succ j =>
      have h1 : (n != n + (j + 1)) = true := by
        simp only [bne_iff_ne, ne_eq]
        omega
      simp only [List.enumFrom, List.filter_cons, h1, if_true, List.map_cons]
      rw [show n + (j + 1) = (n + 1) + j by omega, ih j (n + 1)]
      simp

/-- removeLine removes exactly the line at the index, keeping every
other line in its original order. -/
theorem removeLine_eq_take_drop (l : List TransactionItemDetail) (i : ℕ) :
    removeLine l i = l.take i ++ l.drop (i + 1) := by
  have h := enumFrom_filter_ne_map_snd l i 0
  simpa [removeLine, List.enum] using h

/-- C1: for a draft of type OUT with a nonzero quantity input, addLine
fails with the insufficient-stock alert exactly when the sum of
totalBaseQuantity over the existing lines of the same item plus the new
total base quantity strictly exceeds the item's current quantity.
Scenario A: quantity 100, Box ratio 12, input 9 gives 108 > 100 and
fails.  Draft aggregation: a first Box 5 line (60 of 100) fits and is
appended, a second Box 5 line fails on the combined 120 > 100 even
though 60 alone fits. -/
theorem C1_out_insufficientStock_iff :
    (∀ (item : InventoryItem) (unitName : String) (q : ℚ) (st : ManagerState),
      q ≠ 0 →
      (addLine .OUT item unitName q st = .insufficientStock ↔
        alreadyInCart st.cartItems item.id + q * handleUnitSelect item unitName >
          item.quantity)) ∧
    addLine .OUT scenarioItem "Box" 9 emptyState = .insufficientStock ∧
    (addLine .OUT scenarioItem "Box" 5 emptyState =
        .added { emptyState with cartItems := [mkLine scenarioItem 5 12 "Box"] } ∧
      addLine .OUT scenarioItem "Box" 5
          { emptyState with cartItems := [mkLine scenarioItem 5 12 "Box"] } =
        .insufficientStock ∧
      (5 : ℚ) * 12 ≤ scenarioItem.quantity) := by
  refine ⟨?_, ?_, ?_, ?_, by norm_num [scenarioItem]⟩
  · intro item unitName q st hq
    exact handleAddToCart_out_iff .newCart item q (handleUnitSelect item unitName)
      unitName st hq
  · simp [addLine, handleAddToCart, handleUnitSelect, alreadyInCart, mkLine,
      scenarioItem, emptyState]
    norm_num
  · simp [addLine, handleAddToCart, handleUnitSelect, alreadyInCart, mkLine,
      scenarioItem, emptyState]
    norm_num
  · simp [addLine, handleAddToCart, handleUnitSelect, alreadyInCart, mkLine,
      scenarioItem, emptyState]
    norm_num

/-- C1 witness: the iff instantiated at Scenario A, with the nonzero
hypothesis discharged at quantity input 9. -/
theorem C1_out_insufficientStock_iff_witness :
    (9 : ℚ) ≠ 0 ∧
    (addLine .OUT scenarioItem "Box" 9 emptyState = .insufficientStock ↔
      alreadyInCart emptyState.cartItems scenarioItem.id +
          9 * handleUnitSelect scenarioItem "Box" > scenarioItem.quantity) :=
  ⟨by norm_num,
   C1_out_insufficientStock_iff.1 scenarioItem "Box" 9 emptyState (by norm_num)⟩

/-- C2: the claim says unit resolution fails with UnknownUnit on a name
matching neither the base unit nor any alternative unit, and never
silently defaults to ratio 1.  The code does the opposite: for the
scenario item, the name Crate matches nothing, yet handleUnitSelect
yields ratio 1 and addLine appends a line converted at ratio 1 instead
of failing.  This evaluates the code at that failing input. -/
theorem C2_unknownUnit_silent_default :
    handleUnitSelect scenarioItem "Crate" = 1 ∧
    "Crate" ≠ scenarioItem.baseUnit ∧
    scenarioItem.alternativeUnits.find? (fun u => u.name == "Crate") = none ∧
    addLine .IN scenarioItem "Crate" 5 emptyState =
      .added { emptyState with cartItems := [mkLine scenarioItem 5 1 "Crate"] } := by
  refine ⟨?_, by simp [scenarioItem], by simp [scenarioItem], ?_⟩
  · simp [handleUnitSelect, scenarioItem]
  · simp [addLine, handleAddToCart, handleUnitSelect, alreadyInCart, mkLine,
      scenarioItem, emptyState]

/-- C3: every line is created with totalBaseQuantity equal to
quantityInput times the conversionRatio stored on the line; the created
line depends on the item only through its id and name, so it is
untouched by any later change of the item's alternative units; and the
edit of a line's quantity recomputes totalBaseQuantity from the line's
own stored ratio (updateEditItemQty takes no item or unit table at all)
while leaving every other line unchanged. -/
theorem C3_totalBase_creation_and_frozen :
    (∀ (target : CartTarget) (ty : TransactionType) (item : InventoryItem)
        (q ratio : ℚ) (u : String) (st st1 : ManagerState),
      handleAddToCart target ty (some item) q ratio u st = .added st1 →
      st1 = appendToTarget target (mkLine item q ratio u) st ∧
      (mkLine item q ratio u).totalBaseQuantity =
        (mkLine item q ratio u).quantityInput * (mkLine item q ratio u).conversionRatio ∧
      (mkLine item q ratio u).conversionRatio = ratio) ∧
    (∀ (item item2 : InventoryItem) (q ratio : ℚ) (u : String),
      item.id = item2.id → item.name = item2.name →
      mkLine item q ratio u = mkLine item2 q ratio u) ∧
    (∀ (cart : List TransactionItemDetail) (idx : ℕ) (q : ℚ)
        (L : TransactionItemDetail),
      cart[idx]? = some L →
      L.conversionRatio ≠ 0 →
      (updateEditItemQty cart idx q)[idx]? =
        some { L with quantityInput := q
                      totalBaseQuantity := q * L.conversionRatio } ∧
      ∀ j, j ≠ idx → (updateEditItemQty cart idx q)[j]? = cart[j]?) := by
  refine ⟨?_, ?_, ?_⟩
  · intro target ty item q ratio u st st1 h
    exact ⟨handleAddToCart_added target ty item q ratio u st st1 h, rfl, rfl⟩
  · intro item item2 q ratio u hid hname
    simp [mkLine, hid, hname]
  · intro cart idx q L hL hr
    have h := updateEditItemQty_spec cart idx q L hL
    rw [if_neg hr] at h
    exact h

/-- C3 witness: creation and edit at a concrete input.  Adding 2 Box at
ratio 12 yields a line with totalBaseQuantity 24 = 2 * 12; editing its
quantity to 7 recomputes 84 from the stored ratio 12. -/
theorem C3_totalBase_creation_and_frozen_witness :
    (handleAddToCart .newCart .IN (some scenarioItem) 2 12 "Box" emptyState =
        .added { emptyState with cartItems := [mkLine scenarioItem 2 12 "Box"] } ∧
      ({ emptyState with cartItems := [mkLine scenarioItem 2 12 "Box"] } : ManagerState) =
        appendToTarget .newCart (mkLine scenarioItem 2 12 "Box") emptyState ∧
      (mkLine scenarioItem 2 12 "Box").totalBaseQuantity =
        (mkLine scenarioItem 2 12 "Box").quantityInput *
          (mkLine scenarioItem 2 12 "Box").conversionRatio ∧
      (mkLine scenarioItem 2 12 "Box").conversionRatio = 12) ∧
    ([mkLine scenarioItem 2 12 "Box"][0]? = some (mkLine scenarioItem 2 12 "Box") ∧
      (mkLine scenarioItem 2 12 "Box").conversionRatio ≠ 0 ∧
      (updateEditItemQty [mkLine scenarioItem 2 12 "Box"] 0 7)[0]? =
        some { mkLine scenarioItem 2 12 "Box" with
               quantityInput := 7
               totalBaseQuantity := 7 * (mkLine scenarioItem 2 12 "Box").conversionRatio }) := by
  have hadd : handleAddToCart .newCart .IN (some scenarioItem) 2 12 "Box" emptyState =
      .added { emptyState with cartItems := [mkLine scenarioItem 2 12 "Box"] } := by
    simp [handleAddToCart, mkLine, scenarioItem, emptyState]
  have hmem : ([mkLine scenarioItem 2 12 "Box"] : List TransactionItemDetail)[0]? =
      some (mkLine scenarioItem 2 12 "Box") := rfl
  have hr : (mkLine scenarioItem 2 12 "Box").conversionRatio ≠ 0 := by
    simp [mkLine]
  refine ⟨⟨hadd, ?_⟩, hmem, hr, ?_⟩
  · have h := (C3_totalBase_creation_and_frozen.1 .newCart .IN scenarioItem 2 12 "Box"
      emptyState { emptyState with cartItems := [mkLine scenarioItem 2 12 "Box"] } hadd)
    exact ⟨h.1, h.2.1, h.2.2⟩
  · exact (C3_totalBase_creation_and_frozen.2.2 [mkLine scenarioItem 2 12 "Box"] 0 7
      (mkLine scenarioItem 2 12 "Box") hmem hr).1

/-- C4: the edit flow performs no outbound re-validation on save.  For
any committed OUT transaction, raising a line's quantity through
updateEditItemQty and saving through handleSaveEdit always produces the
updated record — there is no stock comparison anywhere on this path —
even under the hypothesis that the new total base quantity strictly
exceeds the item's currently available quantity. -/
theorem C4_edit_save_no_revalidation :
    ∀ (tx : Transaction) (idx : ℕ) (newQty : ℚ) (item : InventoryItem)
      (L : TransactionItemDetail) (eDate eNotes eSup ePo eRi : String)
      (ePhotos : List String),
      tx.type = .OUT →
      tx.items[idx]? = some L →
      L.itemId = item.id →
      L.conversionRatio ≠ 0 →
      newQty * L.conversionRatio > item.quantity →
      handleSaveEdit (some tx) eDate .OUT eNotes
          (updateEditItemQty tx.items idx newQty) eSup ePo eRi ePhotos =
        some { tx with
               date := eDate
               type := .OUT
               items := updateEditItemQty tx.items idx newQty
               notes := eNotes
               supplierName := some eSup
               poNumber := some ePo
               riNumber := some eRi
               photos := some ePhotos } ∧
      (updateEditItemQty tx.items idx newQty)[idx]? =
        some { L with quantityInput := newQty
                      totalBaseQuantity := newQty * L.conversionRatio } := by
  intro tx idx newQty item L eDate eNotes eSup ePo eRi ePhotos hty hL hid hr hexceed
  refine ⟨rfl, ?_⟩
  have h := (updateEditItemQty_spec tx.items idx newQty L hL).1
  rw [if_neg hr] at h
  exact h

/-- C4 witness: an OUT transaction holding one Box 5 line (60 base
units) for the scenario item at quantity 100 is edited to 9 Box (108
base units, exceeding the 100 available) and saved; the save succeeds
with the excessive line stored. -/
theorem C4_edit_save_no_revalidation_witness :
    (scenarioTxOut.type = .OUT ∧
      scenarioTxOut.items[0]? = some (mkLine scenarioItem 5 12 "Box") ∧
      (mkLine scenarioItem 5 12 "Box").itemId = scenarioItem.id ∧
      (mkLine scenarioItem 5 12 "Box").conversionRatio ≠ 0 ∧
      (9 : ℚ) * (mkLine scenarioItem 5 12 "Box").conversionRatio > scenarioItem.quantity) ∧
    handleSaveEdit (some scenarioTxOut) "2024-01-02" .OUT "edited"
        (updateEditItemQty scenarioTxOut.items 0 9) "" "" "" [] =
      some { scenarioTxOut with
             date := "2024-01-02"
             type := .OUT
             items := updateEditItemQty scenarioTxOut.items 0 9
             notes := "edited"
             supplierName := some ""
             poNumber := some ""
             riNumber := some ""
             photos := some [] } ∧
    (updateEditItemQty scenarioTxOut.items 0 9)[0]? =
      some { mkLine scenarioItem 5 12 "Box" with
             quantityInput := 9
             totalBaseQuantity := 9 * (mkLine scenarioItem 5 12 "Box").conversionRatio } := by
  have h1 : scenarioTxOut.type = .OUT := rfl
  have h2 : scenarioTxOut.items[0]? = some (mkLine scenarioItem 5 12 "Box") := rfl
  have h3 : (mkLine scenarioItem 5 12 "Box").itemId = scenarioItem.id := rfl
  have h4 : (mkLine scenarioItem 5 12 "Box").conversionRatio ≠ 0 := by simp [mkLine]
  have h5 : (9 : ℚ) * (mkLine scenarioItem 5 12 "Box").conversionRatio >
      scenarioItem.quantity := by
    simp [mkLine, scenarioItem]
    norm_num
  exact ⟨⟨h1, h2, h3, h4, h5⟩,
    C4_edit_save_no_revalidation scenarioTxOut 0 9 scenarioItem
      (mkLine scenarioItem 5 12 "Box") "2024-01-02" "edited" "" "" "" [] h1 h2 h3 h4 h5⟩

/-- C5 counterexample: the claim says addLine rejects every non-positive
quantityInput with InvalidQuantity and appends no line.  At the concrete
negative input -1 the guard (which only catches falsy values, i.e. 0)
passes and the line IS appended to the draft. -/
theorem C5_counterexample_negative_quantity_appended :
    handleAddToCart .newCart .IN (some scenarioItem) (-1) 1 "Pcs" emptyState =
      .added { emptyState with cartItems := [mkLine scenarioItem (-1) 1 "Pcs"] } ∧
    ({ emptyState with cartItems := [mkLine scenarioItem (-1) 1 "Pcs"] } : ManagerState).cartItems ≠
      emptyState.cartItems := by
  constructor
  · simp [handleAddToCart, mkLine, scenarioItem, emptyState]
  · simp [emptyState]

/-- C5 amended: a quantityInput of 0 makes addLine a silent no-op — no
line is appended but no InvalidQuantity error exists in the code — while
a negative quantityInput is not rejected at all: for an inbound draft
(and for an outbound draft passing the stock comparison) the line is
appended. -/
theorem C5_amended_no_invalid_quantity_check :
    (∀ (target : CartTarget) (ty : TransactionType) (item : InventoryItem)
        (ratio : ℚ) (u : String) (st : ManagerState),
      handleAddToCart target ty (some item) 0 ratio u st = .noOp) ∧
    (∀ (item : InventoryItem) (q ratio : ℚ) (u : String) (st : ManagerState),
      q < 0 →
      handleAddToCart .newCart .IN (some item) q ratio u st =
        .added { st with cartItems := st.cartItems ++ [mkLine item q ratio u] }) := by
  constructor
  · intro target ty item ratio u st
    simp [handleAddToCart]
  · intro item q ratio u st hq
    have hne : q ≠ 0 := ne_of_lt hq
    simp [handleAddToCart, hne]

/-- C5 witness: the amended statement at quantity input -1 on the
scenario item, with the negativity hypothesis discharged. -/
theorem C5_amended_no_invalid_quantity_check_witness :
    (-1 : ℚ) < 0 ∧
    handleAddToCart .newCart .IN (some scenarioItem) (-1) 1 "Pcs" emptyState =
      .added { emptyState with
               cartItems := emptyState.cartItems ++ [mkLine scenarioItem (-1) 1 "Pcs"] } :=
  ⟨by norm_num,
   C5_amended_no_invalid_quantity_check.2 scenarioItem (-1) 1 "Pcs" emptyState (by norm_num)⟩

/-- C6: a draft with zero lines can never be committed — the submit
handler returns before ever invoking onProcessTransaction, so no
transaction record is appended to the history and no item quantity
changes, for any metadata and any transaction type. -/
theorem C6_empty_draft_not_committed :
    ∀ (newId date notes timestamp sup po ri : String) (photos : List String)
      (ty : TransactionType) (txs : List Transaction) (items : List InventoryItem),
      handleSubmitTransaction [] newId date ty notes timestamp sup po ri photos = none ∧
      recordTransaction txs
          (handleSubmitTransaction [] newId date ty notes timestamp sup po ri photos) = txs ∧
      applyOutcome items
          (handleSubmitTransaction [] newId date ty notes timestamp sup po ri photos) = items := by
  intro newId date notes timestamp sup po ri photos ty txs items
  exact ⟨rfl, rfl, rfl⟩

/-- C7: lowStockItems returns exactly the items whose minLevel is
positive and whose quantity is at or below it (as a permutation of the
filtered input, with the expected membership), ordered ascending by
quantity / minLevel; the function is a pure projection of its input. -/
theorem C7_lowStock_exact_and_ordered :
    ∀ (items : List InventoryItem),
      (lowStockItems items).Perm
        (items.filter (fun i => decide (0 < i.minLevel) && decide (i.quantity ≤ i.minLevel))) ∧
      (∀ i : InventoryItem,
        i ∈ lowStockItems items ↔ i ∈ items ∧ 0 < i.minLevel ∧ i.quantity ≤ i.minLevel) ∧
      List.Sorted (fun a b : InventoryItem =>
        a.quantity / a.minLevel ≤ b.quantity / b.minLevel) (lowStockItems items) := by
  intro items
  have hperm : (lowStockItems items).Perm (items.filter lowStockFilter) :=
    List.mergeSort_perm _ _
  refine ⟨hperm, ?_, ?_⟩
  · intro i
    rw [hperm.mem_iff, List.mem_filter]
    simp [lowStockFilter]
  · have htrans : ∀ a b c : InventoryItem,
        criticalLe a b = true → criticalLe b c = true → criticalLe a c = true := by
      intro a b c hab hbc
      simp only [criticalLe, decide_eq_true_eq] at *
      exact le_trans hab hbc
    have htotal : ∀ a b : InventoryItem, (criticalLe a b || criticalLe b a) = true := by
      intro a b
      simp only [criticalLe, Bool.or_eq_true, decide_eq_true_eq]
      exact le_total _ _
    have hp := List.sorted_mergeSort htrans htotal (items.filter lowStockFilter)
    exact hp.imp (by
      intro a b h
      simpa [criticalLe, criticalRatio] using h)

/-- C8: the cart remove button deletes exactly the line at the given
index, preserving every other line in order; and neither the remove
handler nor handleAddToCart touches the inventory prop — a draft has no
catalog effect before commit. -/
theorem C8_removeLine_exact_and_frame :
    ∀ (st : ManagerState) (i : ℕ),
      (removeLineStep i st).cartItems = st.cartItems.take i ++ st.cartItems.drop (i + 1) ∧
      (removeLineStep i st).inventory = st.inventory ∧
      (removeLineStep i st).editCartItems = st.editCartItems ∧
      (∀ (target : CartTarget) (ty : TransactionType) (sel : Option InventoryItem)
          (q ratio : ℚ) (u : String) (st1 : ManagerState),
        handleAddToCart target ty sel q ratio u st = .added st1 →
        st1.inventory = st.inventory) := by
  intro st i
  refine ⟨removeLine_eq_take_drop st.cartItems i, rfl, rfl, ?_⟩
  intro target ty sel q ratio u st1 h
  cases sel with
  | none => exact absurd h (by simp [handleAddToCart])
  | some item =>
    have hst := handleAddToCart_added target ty item q ratio u st st1 h
    cases target <;> simp [hst, appendToTarget]

/-- C8 witness: removal of index 1 from a two-line cart, and a concrete
successful add, both leaving the inventory untouched. -/
theorem C8_removeLine_exact_and_frame_witness :
    (removeLineStep 1 twoLineState).cartItems =
        twoLineState.cartItems.take 1 ++ twoLineState.cartItems.drop 2 ∧
    (removeLineStep 1 twoLineState).inventory = twoLineState.inventory ∧
    (removeLineStep 1 twoLineState).editCartItems = twoLineState.editCartItems ∧
    (handleAddToCart .newCart .IN (some scenarioItem) 2 12 "Box" twoLineState =
        .added (appendToTarget .newCart (mkLine scenarioItem 2 12 "Box") twoLineState) ∧
      (appendToTarget .newCart (mkLine scenarioItem 2 12 "Box") twoLineState).inventory =
        twoLineState.inventory) := by
  have h := C8_removeLine_exact_and_frame twoLineState 1
  have hadd : handleAddToCart .newCart .IN (some scenarioItem) 2 12 "Box" twoLineState =
      .added (appendToTarget .newCart (mkLine scenarioItem 2 12 "Box") twoLineState) := by
    simp [handleAddToCart, appendToTarget, mkLine, scenarioItem, twoLineState]
  exact ⟨h.1, h.2.1, h.2.2.1, hadd,
    h.2.2.2 .newCart .IN (some scenarioItem) 2 12 "Box" _ hadd⟩

/-- C9: opening the edit modal records the edited transaction's type in
editType, but handleAddToCart consults only the new-transaction form
type: with the form on IN, adding to the edit cart of an OUT transaction
appends unconditionally — no stock check at all — and the availability
check (against the edit cart) runs exactly when the form type is OUT. -/
theorem C9_edit_add_governed_by_form_type :
    (∀ tx : Transaction, (openEditModal tx).editType = tx.type) ∧
    (∀ (tx : Transaction) (item : InventoryItem) (q ratio : ℚ) (u : String)
        (st : ManagerState),
      tx.type = .OUT → q ≠ 0 →
      handleAddToCart .editCart .IN (some item) q ratio u st =
        .added (appendToTarget .editCart (mkLine item q ratio u) st)) ∧
    (∀ (item : InventoryItem) (q ratio : ℚ) (u : String) (st : ManagerState),
      q ≠ 0 →
      (handleAddToCart .editCart .OUT (some item) q ratio u st = .insufficientStock ↔
        alreadyInCart st.editCartItems item.id + q * ratio > item.quantity)) := by
  refine ⟨fun tx => rfl, ?_, ?_⟩
  · intro tx item q ratio u st hty hq
    simp [handleAddToCart, hq, appendToTarget]
  · intro item q ratio u st hq
    exact handleAddToCart_out_iff .editCart item q ratio u st hq

/-- C9 witness: an edit session on the concrete OUT transaction while
the form type is IN appends 9 Box (108 base units, beyond the 100
available) with no check; with form type OUT the same add is governed by
the availability comparison. -/
theorem C9_edit_add_governed_by_form_type_witness :
    (openEditModal scenarioTxOut).editType = scenarioTxOut.type ∧
    (scenarioTxOut.type = .OUT ∧ (9 : ℚ) ≠ 0 ∧
      handleAddToCart .editCart .IN (some scenarioItem) 9 12 "Box" emptyState =
        .added (appendToTarget .editCart (mkLine scenarioItem 9 12 "Box") emptyState)) ∧
    ((9 : ℚ) ≠ 0 ∧
      (handleAddToCart .editCart .OUT (some scenarioItem) 9 12 "Box" emptyState =
          .insufficientStock ↔
        alreadyInCart emptyState.editCartItems scenarioItem.id + 9 * 12 >
          scenarioItem.quantity)) := by
  refine ⟨C9_edit_add_governed_by_form_type.1 scenarioTxOut, ⟨rfl, by norm_num, ?_⟩,
    by norm_num, ?_⟩
  · exact C9_edit_add_governed_by_form_type.2.1 scenarioTxOut scenarioItem 9 12 "Box"
      emptyState rfl (by norm_num)
  · exact C9_edit_add_governed_by_form_type.2.2 scenarioItem 9 12 "Box" emptyState
      (by norm_num)

/-- C10: the dashboard low-stock KPI counter equals the length of the
rendered critical-stock list: both derive from the same predicate, and
sorting does not change the length. -/
theorem C10_lowStockCount_eq_list_length :
    ∀ items : List InventoryItem,
      lowStockCount items = (lowStockItems items).length ∧
      lowStockCount items =
        (items.filter (fun i => decide (0 < i.minLevel) && decide (i.quantity ≤ i.minLevel))).length := by
  intro items
  have hperm : (lowStockItems items).Perm (items.filter lowStockFilter) :=
    List.mergeSort_perm _ _
  exact ⟨hperm.length_eq.symm, rfl⟩

end Fuy
